import Mathlib

/-!
# Verification of the Exam-Management-System proctoring core

Shallow embedding of the student-facing exam application (`exam.py`) and of
the admin-side termination-restore path (`app.py`) of the
Exam-Management-System repository, together with theorems settling the
specification claims about the proctoring state machine, the gating logic,
scoring, and the termination ledger.

Modelling conventions:
* Flask's per-student session is the `StudentSession` structure; the code
  reads every counter with `session.get(key, 0)`, so counters are plain `Nat`
  fields (a popped key behaves as its default).
* The remote Backendless tables are lists of records passed explicitly; a
  fallible write is modelled by a boolean outcome flag and, on failure, an
  unchanged list.
* The DeepFace sensor is an oracle `detect : String → DetectResult` applied
  to the stripped base64 payload; a sensor exception is `DetectResult.failure`.
* Timestamps are abstract: `parse : String → Option Int` stands for
  `dateutil.parser.isoparse`, returning `none` on the malformed/missing
  inputs that raise in Python; `now : Int` is the current instant.
* Python `round(x, 2)` (round-half-to-even) is modelled on exact rationals.
* Purely presentational side effects (flash messages, rendered templates,
  email, stored timestamps) that no claim inspects are omitted; response
  message strings of the face-check endpoint are kept verbatim.
-/

/-- Reason codes written into the `ExamTerminations` table
(`violation_type` in `exam.py`). -/
inductive ViolationType where
  | MULTIPLE_FACES_DETECTED
  | NO_FACE_DETECTED_FOR_5_CHECKS
  | NO_FACE_DETECTED_5_WARNINGS
  | CLIENT_SIDE_VIOLATION
deriving DecidableEq

/-- One row of the `ExamTerminations` table.  Rows are only ever created by
`terminate_exam` (exam.py line 148), which sets `isBlocked`; the admin app's
`remove_termination_status` (app.py line 287) later sets the *different*
field `is_active` (the `terminationTime` / `removed_at` timestamp fields are
omitted: nothing reads them). -/
structure TerminationRecord where
  objectId : Nat
  applicantEmail : Option String
  examId : Option String
  terminationReason : ViolationType
  currentScore : ℚ
  isBlocked : Bool
  is_active : Option Bool
deriving DecidableEq

/-- One row of the `ExamResults` table (`save_exam_result`, exam.py line 93;
the `submissionTime` field is omitted: nothing reads it). -/
structure ResultRecord where
  applicantEmail : Option String
  examId : String
  applicationId : String
  score : ℚ
  totalQuestions : Nat
deriving DecidableEq

/-- A question row: `objectId` primary key and its `correctAnswer`. -/
structure Question where
  objectId : String
  correctAnswer : String
deriving DecidableEq

/-- The exam-paper object assembled by `get_exam_paper_by_exam_id`
(exam.py line 59); the fields the gated pages and submission read.
`applicationId` is `Option` because the code reads it with
`.get('applicationId', 'N/A')`. -/
structure ExamPaper where
  examTitle : String
  startDateTime : String
  endDateTime : String
  questions : List Question
  applicationId : Option String
deriving DecidableEq

/-- The Flask session keys the student app uses.  A key that was popped or
never set reads back as its default (`session.get(k, 0)` for the counters,
`session.get(k)` i.e. `none` for identity, falsy for the login flag). -/
structure StudentSession where
  student_logged_in : Bool
  student_email : Option String
  exam_id : Option String
  no_face_count : Nat
  multiple_face_count : Nat
  no_face_warning_count : Nat
deriving DecidableEq

/-- Model of `check_active_termination` (exam.py line 128): true iff some ledger row
matches the email, the exam id, and has `isBlocked = true`. -/
def check_active_termination (email : Option String) (exam_id : String)
    (ledger : List TerminationRecord) : Bool :=
  ledger.any fun r =>
    r.applicantEmail == email && r.examId == some exam_id && r.isBlocked

/-- Model of `terminate_exam` (exam.py line 148): appends a ledger row with
`isBlocked := true`; the freshly assigned `objectId` is the list length,
and `is_active` is not among the posted fields (`none`). -/
def terminate_exam (email exam_id : Option String)
    (violation_type : ViolationType) (current_score : ℚ)
    (ledger : List TerminationRecord) : List TerminationRecord :=
  ledger ++ [{ objectId := ledger.length
               applicantEmail := email
               examId := exam_id
               terminationReason := violation_type
               currentScore := current_score
               isBlocked := true
               is_active := none }]

/-- Model of `remove_termination_status` (app.py line 287), the admin restore path.
It updates the row with the given `objectId`, setting `is_active := false`
(and a `removed_at` timestamp, omitted); it does not touch `isBlocked`. -/
def remove_termination_status (termination_object_id : Nat)
    (ledger : List TerminationRecord) : List TerminationRecord :=
  ledger.map fun r =>
    if r.objectId = termination_object_id then { r with is_active := some false } else r

/-- Model of `check_if_result_exists` (exam.py line 112): true iff some result row
matches the email and exam id. -/
def check_if_result_exists (email : Option String) (exam_id : String)
    (store : List ResultRecord) : Bool :=
  store.any fun r => r.applicantEmail == email && r.examId == exam_id

/-- Outcome of the `test_login` POST handler (exam.py line 210). -/
inductive LoginOutcome where
  | missingFields
  | accessDenied
  | loginSuccess
  | invalidCredentials
deriving DecidableEq

/-- The POST branch of `test_login` (exam.py lines 222-262).  `credential`
is the `generatedPassword` of the record `get_login_credential` returns
(`none` when no record is found or the record carries no password);
form fields absent in Python read as falsy, modelled by `""`. -/
def test_login (ledger : List TerminationRecord) (credential : Option String)
    (email password login_exam_id : String) :
    LoginOutcome × Option StudentSession :=
  if login_exam_id = "" || email = "" || password = "" then
    (.missingFields, none)
  else if check_active_termination (some email) login_exam_id ledger then
    (.accessDenied, none)
  else
    match credential with
    | some generatedPassword =>
        if generatedPassword = password then
          (.loginSuccess, some { student_logged_in := true
                                 student_email := some email
                                 exam_id := some login_exam_id
                                 no_face_count := 0
                                 multiple_face_count := 0
                                 no_face_warning_count := 0 })
        else (.invalidCredentials, none)
    | none => (.invalidCredentials, none)

/-- The face-count classification of one image sample
(exam.py lines 434-454): either the number of above-threshold detections,
or a sensor exception. -/
inductive DetectResult where
  | faces (n : Nat)
  | failure
deriving DecidableEq

/-- The `face_detected` flag: exactly one face; a sensor exception sets it
false (exam.py lines 448, 453). -/
def faceDetectedFlag : DetectResult → Bool
  | .faces n => n == 1
  | .failure => false

/-- The `multiple_faces` flag: more than one face; a sensor exception sets it
false (exam.py lines 449, 454). -/
def multipleFacesFlag : DetectResult → Bool
  | .faces n => decide (1 < n)
  | .failure => false

/-- Suffix of a character list after the last occurrence of `marker`
(`none` when `marker` does not occur). -/
def suffix_after_last (marker : List Char) : List Char → Option (List Char)
  | [] => none
  | c :: cs =>
    match suffix_after_last marker cs with
    | some r => some r
    | none =>
      if marker.isPrefixOf (c :: cs) then some ((c :: cs).drop marker.length)
      else none

/-- Model of `data.get('image_data', '').split('base64,')[-1]`
(exam.py line 395): the last split segment, i.e. everything after the last
occurrence of the `base64,` marker (for this self-overlap-free separator,
Python's left-to-right split yields exactly the suffix after the rightmost
occurrence), or the whole string when the marker does not occur. -/
def strip_base64_marker (image_data : String) : String :=
  match suffix_after_last "base64,".data image_data.data with
  | some r => String.mk r
  | none => image_data

/-- The warning message emitted on a non-terminating no-face tick
(exam.py lines 508-516). -/
def no_face_warning_message (no_face_warning_count no_face_count : Nat) : String :=
  "WARNING: Face lost! Total Warnings: " ++ toString no_face_warning_count ++
    "/5. Re-appear in " ++ toString (5 - no_face_count) ++ "s!"

/-- The JSON body (plus HTTP status) returned by `/api/check_face`.
On the 401/400 error paths the JSON carries only `success` and `message`;
the remaining fields are modelled by their defaults via
`FaceCheckResponse.error`. -/
structure FaceCheckResponse where
  http_status : Nat
  success : Bool
  face_detected : Bool
  message : String
  terminate : Bool
  no_face_count : Nat
  multiple_face_count : Nat
  no_face_warning_count : Nat
deriving DecidableEq

/-- An error response of `/api/check_face` (only `success: false` and the
message are in the JSON). -/
def FaceCheckResponse.error (status : Nat) (msg : String) : FaceCheckResponse :=
  { http_status := status, success := false, face_detected := false
    message := msg, terminate := false
    no_face_count := 0, multiple_face_count := 0, no_face_warning_count := 0 }

/-- Result of one call to `/api/check_face`: the updated session, the
updated termination ledger, and the response. -/
structure FaceCheckResult where
  session : StudentSession
  ledger : List TerminationRecord
  response : FaceCheckResponse
deriving DecidableEq

/-- Model of `api_check_face` (exam.py lines 385-543), translated statement
by statement.  `deepface_available` is the module-level `DEEPFACE_AVAILABLE`
flag; `detect` is the DeepFace analysis applied to the stripped payload.

Faithfulness note on lines 519-522: inside the in-exam block, the branch
bodies write some counters into the session dict (mirrored here in
`sessionMid`), and afterwards the code unconditionally writes the three
*local* variables back into the session; those write-backs overwrite all
three counter fields, so e.g. the zero-resets of the `face_detected` branch
(lines 463-464) are overwritten with the stale locals. -/
def api_check_face (deepface_available : Bool) (detect : String → DetectResult)
    (s : StudentSession) (ledger : List TerminationRecord)
    (image_data : String) (is_pre_check : Bool) (current_score : ℚ) :
    FaceCheckResult :=
  if s.student_logged_in = false then
    ⟨s, ledger, .error 401 "Authentication required."⟩
  else
    let base64_img := strip_base64_marker image_data
    let email := s.student_email
    let exam_id := s.exam_id
    let no_face_count := s.no_face_count
    let multiple_face_count := s.multiple_face_count
    let no_face_warning_count := s.no_face_warning_count
    if deepface_available = false then
      -- mock mode (lines 414-429): reset all counters, report one face
      ⟨{ s with no_face_count := 0, multiple_face_count := 0, no_face_warning_count := 0 },
       ledger,
       { http_status := 200, success := true, face_detected := true
         message := "Proctoring ON (DeepFace Mock)", terminate := false
         no_face_count := 0, multiple_face_count := 0, no_face_warning_count := 0 }⟩
    else if base64_img = "" then
      ⟨s, ledger, .error 400 "No image data received."⟩
    else
      let d := detect base64_img
      let face_detected := faceDetectedFlag d
      let multiple_faces := multipleFacesFlag d
      if is_pre_check = false then
        -- decision table (lines 461-516); each branch yields the session
        -- dict after its own writes, the three locals, the violation
        -- (should_terminate = violation.isSome) and the message
        let step : StudentSession × Nat × Nat × Nat × Option ViolationType × String :=
          if face_detected then
            ({ s with no_face_count := 0, multiple_face_count := 0 },
             no_face_count, multiple_face_count, no_face_warning_count,
             none, "Face Detected")
          else if multiple_faces then
            let multiple_face_count := multiple_face_count + 1
            if multiple_face_count ≥ 2 then
              ({ s with multiple_face_count := multiple_face_count, no_face_count := 0 },
               no_face_count, multiple_face_count, no_face_warning_count,
               some .MULTIPLE_FACES_DETECTED,
               "EXAM TERMINATED: Multiple faces detected twice.")
            else
              ({ s with multiple_face_count := multiple_face_count, no_face_count := 0 },
               no_face_count, multiple_face_count, no_face_warning_count,
               none,
               "WARNING: Multiple faces detected (1/2 checks). Next failure terminates exam.")
          else
            let no_face_count := no_face_count + 1
            if no_face_count ≥ 5 then
              (s, no_face_count, multiple_face_count, no_face_warning_count,
               some .NO_FACE_DETECTED_FOR_5_CHECKS,
               "EXAM TERMINATED: Face lost for 5 seconds.")
            else if no_face_count = 1 then
              let no_face_warning_count := no_face_warning_count + 1
              if no_face_warning_count ≥ 5 then
                (s, no_face_count, multiple_face_count, no_face_warning_count,
                 some .NO_FACE_DETECTED_5_WARNINGS,
                 "EXAM TERMINATED: 5 Total Warnings Reached.")
              else
                (s, no_face_count, multiple_face_count, no_face_warning_count,
                 none, no_face_warning_message no_face_warning_count no_face_count)
            else
              (s, no_face_count, multiple_face_count, no_face_warning_count,
               none, no_face_warning_message no_face_warning_count no_face_count)
        match step with
        | (sessionMid, nf, mf, wf, violation, message) =>
          -- lines 519-522: unconditional write-back of the locals
          let sessionUpd : StudentSession :=
            { sessionMid with no_face_count := nf, no_face_warning_count := wf,
                              multiple_face_count := mf }
          match violation with
          | some v =>
              -- lines 525-532: record the termination, clear identity keys
              let ledger1 := terminate_exam email exam_id v current_score ledger
              let sessionFin : StudentSession :=
                { sessionUpd with student_logged_in := false,
                                  student_email := none, exam_id := none }
              ⟨sessionFin, ledger1,
               { http_status := 200, success := true, face_detected := face_detected
                 message := message, terminate := true
                 no_face_count := sessionFin.no_face_count
                 multiple_face_count := sessionFin.multiple_face_count
                 no_face_warning_count := sessionFin.no_face_warning_count }⟩
          | none =>
              ⟨sessionUpd, ledger,
               { http_status := 200, success := true, face_detected := face_detected
                 message := message, terminate := false
                 no_face_count := sessionUpd.no_face_count
                 multiple_face_count := sessionUpd.multiple_face_count
                 no_face_warning_count := sessionUpd.no_face_warning_count }⟩
      else
        -- pre-check probe: the in-exam block is skipped, session untouched
        ⟨s, ledger,
         { http_status := 200, success := true, face_detected := face_detected
           message := "Face Detected", terminate := false
           no_face_count := no_face_count
           multiple_face_count := multiple_face_count
           no_face_warning_count := no_face_warning_count }⟩

/-- The time-window validation shared by the three gated pages
(exam.py lines 290-297, 330-337, 565-573): both timestamps are parsed and
`start <= now <= end` is evaluated inside a `try`; any parse failure lands
in the `except` branch which sets `is_exam_open = True` (fail-open). -/
def is_exam_open (parse : String → Option Int)
    (startDateTime endDateTime : String) (now : Int) : Bool :=
  match parse startDateTime, parse endDateTime with
  | some start_time, some end_time => decide (start_time ≤ now ∧ now ≤ end_time)
  | _, _ => true

/-- Outcome of a gated page request: where the handler sends the student. -/
inductive PageOutcome where
  | loginRedirect
  | accessTerminated
  | alreadySubmitted
  | examNotFound
  | examClosed
  | render
deriving DecidableEq

/-- The `student_exam_required` decorator (exam.py lines 173-198):
login flag, session/URL exam-id match, then the active-termination check.
`none` means the guard passes. -/
def student_exam_required_guard (ledger : List TerminationRecord)
    (s : StudentSession) (exam_id : String) : Option PageOutcome :=
  if s.student_logged_in = false then some .loginRedirect
  else if s.exam_id ≠ some exam_id then some .loginRedirect
  else if check_active_termination s.student_email exam_id ledger then
    some .accessTerminated
  else none

/-- Model of `pre_exam_check` (exam.py lines 271-308): guard, already-submitted
check, paper lookup, time window, render. -/
def pre_exam_check (ledger : List TerminationRecord) (store : List ResultRecord)
    (s : StudentSession) (exam_id : String) (paperOpt : Option ExamPaper)
    (parse : String → Option Int) (now : Int) : PageOutcome :=
  match student_exam_required_guard ledger s exam_id with
  | some o => o
  | none =>
    if check_if_result_exists s.student_email exam_id store then .alreadySubmitted
    else
      match paperOpt with
      | none => .examNotFound
      | some exam_paper =>
        if is_exam_open parse exam_paper.startDateTime exam_paper.endDateTime now then
          .render
        else .examClosed

/-- Model of `exam_instructions` (exam.py lines 311-347): guard, paper lookup,
already-submitted check, time window, render. -/
def exam_instructions (ledger : List TerminationRecord) (store : List ResultRecord)
    (s : StudentSession) (exam_id : String) (paperOpt : Option ExamPaper)
    (parse : String → Option Int) (now : Int) : PageOutcome :=
  match student_exam_required_guard ledger s exam_id with
  | some o => o
  | none =>
    match paperOpt with
    | none => .examNotFound
    | some exam_paper =>
      if check_if_result_exists s.student_email exam_id store then .alreadySubmitted
      else if is_exam_open parse exam_paper.startDateTime exam_paper.endDateTime now then
        .render
      else .examClosed

/-- Model of `start_exam` (exam.py lines 545-584): guard, already-submitted check,
paper lookup (also rejecting an empty question list), time window, render. -/
def start_exam (ledger : List TerminationRecord) (store : List ResultRecord)
    (s : StudentSession) (exam_id : String) (paperOpt : Option ExamPaper)
    (parse : String → Option Int) (now : Int) : PageOutcome :=
  match student_exam_required_guard ledger s exam_id with
  | some o => o
  | none =>
    if check_if_result_exists s.student_email exam_id store then .alreadySubmitted
    else
      match paperOpt with
      | none => .examNotFound
      | some exam_paper =>
        if exam_paper.questions = [] then .examNotFound
        else if is_exam_open parse exam_paper.startDateTime exam_paper.endDateTime now then
          .render
        else .examClosed

/-- Python dict insertion: an existing key keeps its position and receives
the new value; a new key is appended. -/
def dict_insert (m : List (String × String)) (k v : String) :
    List (String × String) :=
  if m.any (fun p => p.1 == k) then
    m.map (fun p => if p.1 == k then (k, v) else p)
  else m ++ [(k, v)]

/-- Model of the dict comprehension
`correct_answers = {q['objectId']: q['correctAnswer'] for q in questions}`
(exam.py line 608): so a duplicated `objectId` keeps
only its last `correctAnswer`. -/
def correct_answers_dict (questions : List Question) : List (String × String) :=
  questions.foldl (fun m q => dict_insert m q.objectId q.correctAnswer) []

/-- The raw-score loop (exam.py lines 610-614): one point per dict entry
whose submitted form answer is present, truthy (non-empty), and equal to
the correct answer. -/
def raw_score_calc (form : String → Option String)
    (correct_answers : List (String × String)) : Nat :=
  correct_answers.foldl
    (fun acc p =>
      match form p.1 with
      | some student_answer =>
          if student_answer ≠ "" && student_answer == p.2 then acc + 1 else acc
      | none => acc)
    0

/-- Python's `round` to an integer: round half to even. -/
def python_round_int (q : ℚ) : ℤ :=
  let f := ⌊q⌋
  if q - f < 1/2 then f
  else if q - f > 1/2 then f + 1
  else if f % 2 = 0 then f else f + 1

/-- Python's `round(x, 2)`: round half to even at two decimal places
(modelled on exact rationals; binary floating-point representation error is
outside the model). -/
def python_round2 (q : ℚ) : ℚ := (python_round_int (q * 100) : ℚ) / 100

/-- Outcome of the `submit_exam` POST handler. -/
inductive SubmitOutcome where
  | loginRedirect
  | accessTerminated
  | alreadySubmitted
  | missingExamData
  | submitted (percentage : ℚ)
  | saveFailed
deriving DecidableEq

/-- Result of one `submit_exam` request: updated session, updated result
store, and the handler outcome. -/
structure SubmitResult where
  session : StudentSession
  store : List ResultRecord
  outcome : SubmitOutcome
deriving DecidableEq

/-- Model of `submit_exam` (exam.py lines 587-649) behind
`student_exam_required`.
`form` is `request.form.get`; `writeOk` is whether the `save_exam_result`
POST succeeds (on failure the remote store is unchanged and the handler
redirects back to `start_exam` without touching the session). -/
def submit_exam (ledger : List TerminationRecord) (store : List ResultRecord)
    (s : StudentSession) (exam_id : String) (paperOpt : Option ExamPaper)
    (form : String → Option String) (writeOk : Bool) : SubmitResult :=
  -- decorator: not logged in → redirect (session unchanged);
  -- exam-id mismatch → pop identity keys and redirect;
  -- active termination → session.clear() and deny
  if s.student_logged_in = false then ⟨s, store, .loginRedirect⟩
  else if s.exam_id ≠ some exam_id then
    ⟨{ s with student_logged_in := false, student_email := none, exam_id := none },
     store, .loginRedirect⟩
  else if check_active_termination s.student_email exam_id ledger then
    ⟨⟨false, none, none, 0, 0, 0⟩, store, .accessTerminated⟩
  else if check_if_result_exists s.student_email exam_id store then
    ⟨s, store, .alreadySubmitted⟩
  else
    match paperOpt with
    | none => ⟨s, store, .missingExamData⟩
    | some exam_paper =>
      if exam_paper.questions = [] then ⟨s, store, .missingExamData⟩
      else
        let correct_answers := correct_answers_dict exam_paper.questions
        let total_questions := exam_paper.questions.length
        let raw_score := raw_score_calc form correct_answers
        let percentage_score : ℚ :=
          if total_questions > 0 then
            python_round2 ((raw_score : ℚ) / (total_questions : ℚ) * 100)
          else 0
        let result : ResultRecord :=
          { applicantEmail := s.student_email
            examId := exam_id
            applicationId := exam_paper.applicationId.getD "N/A"
            score := percentage_score
            totalQuestions := total_questions }
        if writeOk then
          ⟨⟨false, none, none, 0, 0, 0⟩, store ++ [result], .submitted percentage_score⟩
        else ⟨s, store, .saveFailed⟩

/-- C8: while the Face-Presence Sensor is unavailable, any authenticated
face-check tick reports exactly one face, never terminates, resets all
three counters to zero, leaves the ledger untouched, and the sensor (and
hence the decision table) is never consulted: the result does not depend
on the detection function at all, regardless of image and prior counters. -/
theorem c8_degraded_mode_pass_through (detect : String → DetectResult)
    (s : StudentSession) (ledger : List TerminationRecord)
    (image_data : String) (is_pre_check : Bool) (current_score : ℚ)
    (hlog : s.student_logged_in = true) :
    api_check_face false detect s ledger image_data is_pre_check current_score =
      ⟨{ s with no_face_count := 0, multiple_face_count := 0, no_face_warning_count := 0 },
       ledger,
       { http_status := 200, success := true, face_detected := true
         message := "Proctoring ON (DeepFace Mock)", terminate := false
         no_face_count := 0, multiple_face_count := 0, no_face_warning_count := 0 }⟩ ∧
    ∀ detect2 : String → DetectResult,
      api_check_face false detect2 s ledger image_data is_pre_check current_score =
        api_check_face false detect s ledger image_data is_pre_check current_score := by
  constructor
  · simp [api_check_face, hlog]
  · intro detect2
    simp [api_check_face, hlog]

/-- Witness for C8 at a concrete degraded-mode tick with dirty counters. -/
theorem c8_degraded_mode_witness :
    api_check_face false (fun _ => DetectResult.faces 5)
        ⟨true, some "s@x.com", some "EX1", 3, 4, 2⟩ [] "img" false 0 =
      ⟨⟨true, some "s@x.com", some "EX1", 0, 0, 0⟩, [],
       { http_status := 200, success := true, face_detected := true
         message := "Proctoring ON (DeepFace Mock)", terminate := false
         no_face_count := 0, multiple_face_count := 0, no_face_warning_count := 0 }⟩ :=
  (c8_degraded_mode_pass_through (fun _ => DetectResult.faces 5)
    ⟨true, some "s@x.com", some "EX1", 3, 4, 2⟩ [] "img" false 0 rfl).1

/-- C9: an authenticated face-check tick whose payload is empty after
stripping the base64 marker, with the sensor available, returns the 400
error response and changes nothing: session (hence all three counters)
and ledger are exactly as before. -/
theorem c9_empty_image_rejected_unchanged (detect : String → DetectResult)
    (s : StudentSession) (ledger : List TerminationRecord)
    (image_data : String) (is_pre_check : Bool) (current_score : ℚ)
    (hlog : s.student_logged_in = true)
    (himg : strip_base64_marker image_data = "") :
    api_check_face true detect s ledger image_data is_pre_check current_score =
      ⟨s, ledger, .error 400 "No image data received."⟩ := by
  simp [api_check_face, hlog, himg]

/-- Witness for C9: a bare data-URL prefix with no payload is rejected and
the counters survive untouched. -/
theorem c9_empty_image_witness :
    api_check_face true (fun _ => DetectResult.faces 0)
        ⟨true, some "s@x.com", some "EX1", 4, 1, 4⟩ [] "data:image/png;base64," false 0 =
      ⟨⟨true, some "s@x.com", some "EX1", 4, 1, 4⟩, [],
       FaceCheckResponse.error 400 "No image data received."⟩ :=
  c9_empty_image_rejected_unchanged (fun _ => DetectResult.faces 0)
    ⟨true, some "s@x.com", some "EX1", 4, 1, 4⟩ [] "data:image/png;base64," false 0
    rfl (by decide)

/-- C2 counterexample: an in-exam zero-faces tick (sensor available,
logged in) does not reset `consecutiveMultiFaceCount`: starting from
`multiple_face_count = 1` it is still `1` (not `0`) after the tick. -/
theorem c2_no_face_does_not_reset_multi :
    (api_check_face true (fun _ => DetectResult.faces 0)
      ⟨true, some "s@x.com", some "EX1", 0, 1, 0⟩ [] "img" false 0).session.multiple_face_count
      ≠ 0 := by
  decide

/-- C2 (amended): on every in-exam tick that is not a multiple-faces tick —
so on every no-face tick, and likewise on every single-face tick —
`consecutiveMultiFaceCount` is left unchanged at its prior value (the
zero-reset the single-face branch writes is overwritten by the final
write-back of the stale local, exam.py lines 519-522). -/
theorem c2_amended_multi_count_unchanged (detect : String → DetectResult)
    (s : StudentSession) (ledger : List TerminationRecord)
    (image_data : String) (current_score : ℚ)
    (hlog : s.student_logged_in = true)
    (himg : strip_base64_marker image_data ≠ "")
    (hmf : multipleFacesFlag (detect (strip_base64_marker image_data)) = false) :
    (api_check_face true detect s ledger image_data false current_score).session.multiple_face_count
      = s.multiple_face_count := by
  cases hfd : faceDetectedFlag (detect (strip_base64_marker image_data)) <;>
    simp [api_check_face, hlog, himg, hmf, hfd] <;>
    split_ifs <;> simp_all

/-- Witness for C2's amended statement: a no-face tick starting from
`multiple_face_count = 3` keeps it at `3`. -/
theorem c2_amended_witness :
    (api_check_face true (fun _ => DetectResult.failure)
      ⟨true, some "s@x.com", some "EX1", 1, 3, 2⟩ [] "img" false 0).session.multiple_face_count
      = 3 := by
  have h := c2_amended_multi_count_unchanged (fun _ => DetectResult.failure)
    ⟨true, some "s@x.com", some "EX1", 1, 3, 2⟩ [] "img" 0 rfl (by decide) rfl
  simpa using h

/-- C6: evaluation at the failing input.  The claim (and the in-branch
resets of exam.py lines 463-464) say a single-face tick zeroes both
consecutive counters, but the unconditional write-back of the stale locals
(lines 519-522) overwrites those resets: from counters `(3, 1, 1)` a
single-face in-exam tick returns the session completely unchanged — the
counters do NOT become 0. -/
theorem c6_single_face_tick_does_not_reset :
    (api_check_face true (fun _ => DetectResult.faces 1)
      ⟨true, some "s@x.com", some "EX1", 3, 1, 1⟩ [] "img" false 0).session =
      ⟨true, some "s@x.com", some "EX1", 3, 1, 1⟩ ∧
    (api_check_face true (fun _ => DetectResult.faces 1)
      ⟨true, some "s@x.com", some "EX1", 3, 1, 1⟩ [] "img" false 0).session.no_face_count
      ≠ 0 := by
  decide

/-- C3: evaluation at the failing input.  `terminate_exam` writes the
ledger row with `isBlocked = true`; the admin restore
(`remove_termination_status`) updates the *different* field `is_active` on
that row and leaves `isBlocked` untouched, so after the restore the
blocking query `check_active_termination` (which filters on
`isBlocked = true`) still matches and a login with the correct password is
still refused with the permanent access-denied outcome. -/
theorem c3_restore_does_not_lift_block :
    remove_termination_status 0
        (terminate_exam (some "s@x.com") (some "EX1")
          .MULTIPLE_FACES_DETECTED 0 []) =
      [{ objectId := 0, applicantEmail := some "s@x.com", examId := some "EX1",
         terminationReason := .MULTIPLE_FACES_DETECTED, currentScore := 0,
         isBlocked := true, is_active := some false }] ∧
    check_active_termination (some "s@x.com") "EX1"
      (remove_termination_status 0
        (terminate_exam (some "s@x.com") (some "EX1")
          .MULTIPLE_FACES_DETECTED 0 [])) = true ∧
    (test_login
      (remove_termination_status 0
        (terminate_exam (some "s@x.com") (some "EX1")
          .MULTIPLE_FACES_DETECTED 0 []))
      (some "pw123") "s@x.com" "pw123" "EX1").1 = .accessDenied := by
  decide

/-- Exactly-one-face and more-than-one-face cannot both hold for one
detection result. -/
theorem flags_not_both (d : DetectResult) :
    faceDetectedFlag d = true → multipleFacesFlag d = false := by
  cases d <;> simp [faceDetectedFlag, multipleFacesFlag] <;> omega

/-- C1: an in-exam violation tick (sensor available, non-empty image,
`is_pre_check = false`) terminates iff, after the tick's counter update:
multiple faces were detected and the multi-face count reaches 2, or zero
faces were detected and the consecutive no-face count reaches 5, or zero
faces were detected on the first tick of a streak (count becomes 1) and
the cumulative warning count reaches 5; no other combination terminates,
and the termination record carries the matching reason code. -/
theorem c1_termination_iff (detect : String → DetectResult)
    (s : StudentSession) (ledger : List TerminationRecord)
    (image_data : String) (current_score : ℚ)
    (hlog : s.student_logged_in = true)
    (himg : strip_base64_marker image_data ≠ "") :
    ((api_check_face true detect s ledger image_data false current_score).response.terminate = true ↔
      (multipleFacesFlag (detect (strip_base64_marker image_data)) = true ∧
        2 ≤ s.multiple_face_count + 1) ∨
      (faceDetectedFlag (detect (strip_base64_marker image_data)) = false ∧
        multipleFacesFlag (detect (strip_base64_marker image_data)) = false ∧
        5 ≤ s.no_face_count + 1) ∨
      (faceDetectedFlag (detect (strip_base64_marker image_data)) = false ∧
        multipleFacesFlag (detect (strip_base64_marker image_data)) = false ∧
        s.no_face_count + 1 = 1 ∧ 5 ≤ s.no_face_warning_count + 1)) ∧
    ((multipleFacesFlag (detect (strip_base64_marker image_data)) = true ∧
        2 ≤ s.multiple_face_count + 1) →
      (api_check_face true detect s ledger image_data false current_score).ledger =
        terminate_exam s.student_email s.exam_id ViolationType.MULTIPLE_FACES_DETECTED
          current_score ledger) ∧
    ((faceDetectedFlag (detect (strip_base64_marker image_data)) = false ∧
        multipleFacesFlag (detect (strip_base64_marker image_data)) = false ∧
        5 ≤ s.no_face_count + 1) →
      (api_check_face true detect s ledger image_data false current_score).ledger =
        terminate_exam s.student_email s.exam_id ViolationType.NO_FACE_DETECTED_FOR_5_CHECKS
          current_score ledger) ∧
    ((faceDetectedFlag (detect (strip_base64_marker image_data)) = false ∧
        multipleFacesFlag (detect (strip_base64_marker image_data)) = false ∧
        s.no_face_count + 1 = 1 ∧ 5 ≤ s.no_face_warning_count + 1) →
      (api_check_face true detect s ledger image_data false current_score).ledger =
        terminate_exam s.student_email s.exam_id ViolationType.NO_FACE_DETECTED_5_WARNINGS
          current_score ledger) ∧
    ((api_check_face true detect s ledger image_data false current_score).response.terminate = false →
      (api_check_face true detect s ledger image_data false current_score).ledger = ledger) := by
  cases hfd : faceDetectedFlag (detect (strip_base64_marker image_data)) <;>
    cases hmf : multipleFacesFlag (detect (strip_base64_marker image_data))
  · -- zero faces detected (or sensor failure)
    refine ⟨?_, ?_, ?_, ?_, ?_⟩ <;>
      simp only [api_check_face, hlog, himg, hfd, hmf] <;>
      simp <;> split_ifs <;> simp_all <;> omega
  · -- multiple faces detected
    refine ⟨?_, ?_, ?_, ?_, ?_⟩ <;>
      simp only [api_check_face, hlog, himg, hfd, hmf] <;>
      simp <;> split_ifs <;> simp_all
  · -- exactly one face detected
    refine ⟨?_, ?_, ?_, ?_, ?_⟩ <;>
      simp [api_check_face, hlog, himg, hfd, hmf]
  · -- both flags true is impossible
    rw [flags_not_both _ hfd] at hmf
    exact absurd hmf (by simp)

/-- Witness for C1: a second consecutive multiple-faces tick terminates. -/
theorem c1_termination_witness :
    (api_check_face true (fun _ => DetectResult.faces 2)
      ⟨true, some "s@x.com", some "EX1", 0, 1, 0⟩ [] "img" false 0).response.terminate = true :=
  ((c1_termination_iff (fun _ => DetectResult.faces 2)
      ⟨true, some "s@x.com", some "EX1", 0, 1, 0⟩ [] "img" 0 rfl (by decide)).1).mpr
    (Or.inl ⟨by decide, by decide⟩)

/-- C5: when a result record already exists for the session's (email, exam)
pair, the submission is rejected up front — the outcome is the
already-submitted redirect, the result store is unchanged (no second
record), the session is untouched, and the result does not depend on the
paper, the submitted answers, or the write outcome (so no scoring work is
reachable). -/
theorem c5_already_submitted_rejected (ledger : List TerminationRecord)
    (store : List ResultRecord) (s : StudentSession) (exam_id : String)
    (paperOpt : Option ExamPaper) (form : String → Option String) (writeOk : Bool)
    (hlog : s.student_logged_in = true)
    (hexam : s.exam_id = some exam_id)
    (hnb : check_active_termination s.student_email exam_id ledger = false)
    (hres : check_if_result_exists s.student_email exam_id store = true) :
    submit_exam ledger store s exam_id paperOpt form writeOk =
      ⟨s, store, .alreadySubmitted⟩ := by
  simp [submit_exam, hlog, hexam, hnb, hres]

/-- Witness for C5 at a concrete already-submitted pair. -/
theorem c5_already_submitted_witness :
    submit_exam [] [⟨some "s@x.com", "EX1", "app1", 50, 2⟩]
        ⟨true, some "s@x.com", some "EX1", 0, 0, 0⟩ "EX1"
        (some ⟨"T", "st", "en", [⟨"q1", "A"⟩], some "app1"⟩)
        (fun _ => some "A") true =
      ⟨⟨true, some "s@x.com", some "EX1", 0, 0, 0⟩,
       [⟨some "s@x.com", "EX1", "app1", 50, 2⟩], .alreadySubmitted⟩ :=
  c5_already_submitted_rejected [] [⟨some "s@x.com", "EX1", "app1", 50, 2⟩]
    ⟨true, some "s@x.com", some "EX1", 0, 0, 0⟩ "EX1"
    (some ⟨"T", "st", "en", [⟨"q1", "A"⟩], some "app1"⟩)
    (fun _ => some "A") true rfl rfl (by decide) (by decide)

/-- C10: when the result-store write fails, `submit_exam` leaves the
session exactly as it was (still logged in, identity and counters intact),
writes nothing to the result store, and redirects back to the exam. -/
theorem c10_save_failure_preserves_state (ledger : List TerminationRecord)
    (store : List ResultRecord) (s : StudentSession) (exam_id : String)
    (exam_paper : ExamPaper) (form : String → Option String)
    (hlog : s.student_logged_in = true)
    (hexam : s.exam_id = some exam_id)
    (hnb : check_active_termination s.student_email exam_id ledger = false)
    (hnr : check_if_result_exists s.student_email exam_id store = false)
    (hq : exam_paper.questions ≠ []) :
    submit_exam ledger store s exam_id (some exam_paper) form false =
      ⟨s, store, .saveFailed⟩ := by
  simp [submit_exam, hlog, hexam, hnb, hnr, hq]

/-- Witness for C10 at a concrete failing write. -/
theorem c10_save_failure_witness :
    submit_exam [] [] ⟨true, some "s@x.com", some "EX1", 2, 1, 3⟩ "EX1"
        (some ⟨"T", "st", "en", [⟨"q1", "A"⟩], some "app1"⟩)
        (fun _ => some "A") false =
      ⟨⟨true, some "s@x.com", some "EX1", 2, 1, 3⟩, [], .saveFailed⟩ :=
  c10_save_failure_preserves_state [] [] ⟨true, some "s@x.com", some "EX1", 2, 1, 3⟩
    "EX1" ⟨"T", "st", "en", [⟨"q1", "A"⟩], some "app1"⟩ (fun _ => some "A")
    rfl rfl rfl rfl (by decide)

/-- C4 counterexample: for an exam with zero questions nothing is stored at
all — the handler rejects the submission as missing exam data before the
scoring block, so the claimed stored `0.0` result never exists. -/
theorem c4_zero_questions_nothing_stored :
    (submit_exam [] [] ⟨true, some "s@x.com", some "EX1", 0, 0, 0⟩ "EX1"
      (some ⟨"T", "st", "en", [], some "app1"⟩) (fun _ => none) true).store = [] ∧
    (submit_exam [] [] ⟨true, some "s@x.com", some "EX1", 0, 0, 0⟩ "EX1"
      (some ⟨"T", "st", "en", [], some "app1"⟩) (fun _ => none) true).outcome =
      .missingExamData := by
  decide

/-- C4 (amended): for an exam with at least one question, a successful
submission stores exactly `round(K/N*100, 2)` (round half to even, on exact
rationals) where `N` is the question count and `K` the number of submitted
non-empty answers matching the (per-question-id, last-wins) correct-answer
map; no division error can occur.  For zero questions the submission is
rejected as missing exam data before scoring and nothing is stored. -/
theorem c4_amended_percentage_scoring (ledger : List TerminationRecord)
    (store : List ResultRecord) (s : StudentSession) (exam_id : String)
    (exam_paper : ExamPaper) (form : String → Option String) (writeOk : Bool)
    (hlog : s.student_logged_in = true)
    (hexam : s.exam_id = some exam_id)
    (hnb : check_active_termination s.student_email exam_id ledger = false)
    (hnr : check_if_result_exists s.student_email exam_id store = false) :
    (exam_paper.questions = [] →
      submit_exam ledger store s exam_id (some exam_paper) form writeOk =
        ⟨s, store, .missingExamData⟩) ∧
    (exam_paper.questions ≠ [] → writeOk = true →
      submit_exam ledger store s exam_id (some exam_paper) form writeOk =
        ⟨⟨false, none, none, 0, 0, 0⟩,
         store ++ [{ applicantEmail := s.student_email, examId := exam_id,
                     applicationId := exam_paper.applicationId.getD "N/A",
                     score := python_round2
                       ((raw_score_calc form (correct_answers_dict exam_paper.questions) : ℚ) /
                         (exam_paper.questions.length : ℚ) * 100),
                     totalQuestions := exam_paper.questions.length }],
         .submitted (python_round2
           ((raw_score_calc form (correct_answers_dict exam_paper.questions) : ℚ) /
             (exam_paper.questions.length : ℚ) * 100))⟩) := by
  constructor
  · intro hq
    simp [submit_exam, hlog, hexam, hnb, hnr, hq]
  · intro hq hw
    subst hw
    simp [submit_exam, hlog, hexam, hnb, hnr, hq, List.length_pos.mpr hq]

/-- Witness for C4's amended statement: 10 questions, 7 matching answers,
stored percentage 70. -/
theorem c4_amended_scoring_witness :
    (submit_exam [] [] ⟨true, some "s@x.com", some "EX1", 0, 0, 0⟩ "EX1"
      (some ⟨"T", "st", "en",
        [⟨"q01", "A"⟩, ⟨"q02", "A"⟩, ⟨"q03", "A"⟩, ⟨"q04", "A"⟩, ⟨"q05", "A"⟩,
         ⟨"q06", "A"⟩, ⟨"q07", "A"⟩, ⟨"q08", "A"⟩, ⟨"q09", "A"⟩, ⟨"q10", "A"⟩],
        some "app1"⟩)
      (fun k =>
        if k = "q01" ∨ k = "q02" ∨ k = "q03" ∨ k = "q04" ∨ k = "q05" ∨ k = "q06" ∨ k = "q07"
        then some "A" else some "B")
      true).outcome = SubmitOutcome.submitted 70 := by
  have h := (c4_amended_percentage_scoring [] []
    ⟨true, some "s@x.com", some "EX1", 0, 0, 0⟩ "EX1"
    ⟨"T", "st", "en",
      [⟨"q01", "A"⟩, ⟨"q02", "A"⟩, ⟨"q03", "A"⟩, ⟨"q04", "A"⟩, ⟨"q05", "A"⟩,
       ⟨"q06", "A"⟩, ⟨"q07", "A"⟩, ⟨"q08", "A"⟩, ⟨"q09", "A"⟩, ⟨"q10", "A"⟩],
      some "app1"⟩
    (fun k =>
      if k = "q01" ∨ k = "q02" ∨ k = "q03" ∨ k = "q04" ∨ k = "q05" ∨ k = "q06" ∨ k = "q07"
      then some "A" else some "B")
    true rfl rfl rfl rfl).2 (by decide) rfl
  have hk : raw_score_calc
      (fun k =>
        if k = "q01" ∨ k = "q02" ∨ k = "q03" ∨ k = "q04" ∨ k = "q05" ∨ k = "q06" ∨ k = "q07"
        then some "A" else some "B")
      (correct_answers_dict
        [⟨"q01", "A"⟩, ⟨"q02", "A"⟩, ⟨"q03", "A"⟩, ⟨"q04", "A"⟩, ⟨"q05", "A"⟩,
         ⟨"q06", "A"⟩, ⟨"q07", "A"⟩, ⟨"q08", "A"⟩, ⟨"q09", "A"⟩, ⟨"q10", "A"⟩]) = 7 := by
    decide
  rw [h]
  norm_num [hk, python_round2, python_round_int]

/-- C7: on entry to each gated page (pre-check, instructions, exam start),
with the guard, already-submitted and paper checks passing, the page
renders or is refused as closed exactly according to `is_exam_open`; a
parse failure of either timestamp makes the window read open (fail-open),
and the window reads closed exactly when both timestamps parse and `now`
lies outside `[start, end]`. -/
theorem c7_fail_open_window (ledger : List TerminationRecord)
    (store : List ResultRecord) (s : StudentSession) (exam_id : String)
    (exam_paper : ExamPaper) (parse : String → Option Int) (now : Int)
    (hlog : s.student_logged_in = true)
    (hexam : s.exam_id = some exam_id)
    (hnb : check_active_termination s.student_email exam_id ledger = false)
    (hnr : check_if_result_exists s.student_email exam_id store = false)
    (hq : exam_paper.questions ≠ []) :
    (pre_exam_check ledger store s exam_id (some exam_paper) parse now =
      if is_exam_open parse exam_paper.startDateTime exam_paper.endDateTime now then
        .render else .examClosed) ∧
    (exam_instructions ledger store s exam_id (some exam_paper) parse now =
      if is_exam_open parse exam_paper.startDateTime exam_paper.endDateTime now then
        .render else .examClosed) ∧
    (start_exam ledger store s exam_id (some exam_paper) parse now =
      if is_exam_open parse exam_paper.startDateTime exam_paper.endDateTime now then
        .render else .examClosed) ∧
    ((parse exam_paper.startDateTime = none ∨ parse exam_paper.endDateTime = none) →
      is_exam_open parse exam_paper.startDateTime exam_paper.endDateTime now = true) ∧
    (is_exam_open parse exam_paper.startDateTime exam_paper.endDateTime now = false ↔
      ∃ start_time end_time,
        parse exam_paper.startDateTime = some start_time ∧
        parse exam_paper.endDateTime = some end_time ∧
        ¬(start_time ≤ now ∧ now ≤ end_time)) := by
  refine ⟨?_, ?_, ?_, ?_, ?_⟩
  · simp [pre_exam_check, student_exam_required_guard, hlog, hexam, hnb, hnr]
  · simp [exam_instructions, student_exam_required_guard, hlog, hexam, hnb, hnr]
  · simp [start_exam, student_exam_required_guard, hlog, hexam, hnb, hnr, hq]
  · intro h
    rcases h with h | h <;> simp [is_exam_open, h]
  · unfold is_exam_open
    cases hs : parse exam_paper.startDateTime <;>
      cases he : parse exam_paper.endDateTime <;> simp

/-- Witness for C7: with both timestamps malformed (the parser fails on
every input) all three gated pages proceed. -/
theorem c7_fail_open_witness :
    pre_exam_check [] [] ⟨true, some "s@x.com", some "EX1", 0, 0, 0⟩ "EX1"
        (some ⟨"T", "not-a-date", "also-bad", [⟨"q1", "A"⟩], none⟩) (fun _ => none) 0 =
      .render ∧
    exam_instructions [] [] ⟨true, some "s@x.com", some "EX1", 0, 0, 0⟩ "EX1"
        (some ⟨"T", "not-a-date", "also-bad", [⟨"q1", "A"⟩], none⟩) (fun _ => none) 0 =
      .render ∧
    start_exam [] [] ⟨true, some "s@x.com", some "EX1", 0, 0, 0⟩ "EX1"
        (some ⟨"T", "not-a-date", "also-bad", [⟨"q1", "A"⟩], none⟩) (fun _ => none) 0 =
      .render := by
  have h := c7_fail_open_window [] [] ⟨true, some "s@x.com", some "EX1", 0, 0, 0⟩ "EX1"
    ⟨"T", "not-a-date", "also-bad", [⟨"q1", "A"⟩], none⟩ (fun _ => none) 0
    rfl rfl rfl rfl (by decide)
  exact ⟨h.1.trans (by decide), h.2.1.trans (by decide), h.2.2.1.trans (by decide)⟩
